import Mathlib

/-!
Verification development for the NFL statistical projection engine:
a shallow embedding of `app/services/probability_calculator.py` and
`app/services/rolling_stats_calculator.py`, with theorems about the
distribution evaluators, the distribution-selection heuristic, the
composite statistics and the projection orchestration.

Real numbers stand in for Python floats; `round4` / `round2` model
Python `round(x, 4)` / `round(x, 2)` (up to the half-tie convention,
which none of the concrete values below hits), and `pyInt` models
Python `int(x)` (truncation toward zero).
-/

namespace NFLBets

/-- Python `round(x, 4)`: round to four decimal places. -/
noncomputable def round4 (x : ℝ) : ℝ := (round (x * 10000) : ℤ) / 10000

/-- Python `round(x, 2)`: round to two decimal places. -/
noncomputable def round2 (x : ℝ) : ℝ := (round (x * 100) : ℤ) / 100

/-- Python `int(x)`: truncation toward zero (floor for nonnegative
arguments, negated floor of the negation otherwise). -/
noncomputable def pyInt (x : ℝ) : ℤ := if 0 ≤ x then ⌊x⌋ else -⌊-x⌋

/-- `scipy.stats.poisson.cdf k lam`: the Poisson cumulative distribution
function at the integer `k`, which is `0` for negative `k`. -/
noncomputable def poissonCDF (k : ℤ) (lam : ℝ) : ℝ :=
  if k < 0 then 0
  else Real.exp (-lam) * ∑ i in Finset.range (k.toNat + 1), lam ^ i / (Nat.factorial i)

/-- `scipy.stats.nbinom.cdf k r p`: the negative-binomial cumulative
distribution function at the integer `k` (number-of-failures
convention, real size parameter `r` via the Gamma function). -/
noncomputable def nbinomCDF (k : ℤ) (r p : ℝ) : ℝ :=
  if k < 0 then 0
  else ∑ i in Finset.range (k.toNat + 1),
    (Real.Gamma (i + r) / (Real.Gamma r * (Nat.factorial i))) * p ^ r * (1 - p) ^ i

/-- `scipy.stats.norm.cdf x mean std`: the Gaussian cumulative
distribution function with location `mean` and scale `std`. -/
noncomputable def normalCDF (x mean std : ℝ) : ℝ :=
  ∫ t in Set.Iic x, Real.exp (-((t - mean) ^ 2) / (2 * std ^ 2)) / (std * Real.sqrt (2 * Real.pi))

/-- `ProbabilityCalculator.calculate_normal_probability`. -/
noncomputable def calculate_normal_probability (mean std prop_line : ℝ) (over : Bool) : ℝ :=
  if std ≤ 0 then 0.5
  else if over then 1 - normalCDF prop_line mean std
  else normalCDF prop_line mean std

/-- `ProbabilityCalculator.calculate_poisson_probability`. -/
noncomputable def calculate_poisson_probability (lambda_param prop_line : ℝ) (over : Bool) : ℝ :=
  if lambda_param ≤ 0 then 0
  else if over then 1 - poissonCDF (pyInt prop_line) lambda_param
  else if 0 < prop_line then poissonCDF (pyInt (prop_line - 1)) lambda_param
  else 0

/-- `ProbabilityCalculator.calculate_negative_binomial_probability`. -/
noncomputable def calculate_negative_binomial_probability
    (mean variance prop_line : ℝ) (over : Bool) : ℝ :=
  if mean ≤ 0 ∨ variance ≤ mean then
    calculate_poisson_probability mean prop_line over
  else
    let p := mean / variance
    let r := (mean * p) / (1 - p)
    if r ≤ 0 ∨ p ≤ 0 ∨ 1 ≤ p then
      calculate_poisson_probability mean prop_line over
    else if over then 1 - nbinomCDF (pyInt prop_line) r p
    else if 0 < prop_line then nbinomCDF (pyInt (prop_line - 1)) r p
    else 0

theorem pyInt_of_nonneg (x : ℝ) (h : 0 ≤ x) : pyInt x = ⌊x⌋ := by
  simp [pyInt, h]

theorem pyInt_of_neg_gt_neg_one (x : ℝ) (h1 : -1 < x) (h2 : x < 0) : pyInt x = 0 := by
  have hx : ¬ (0 ≤ x) := not_le.mpr h2
  have : ⌊-x⌋ = 0 := by
    rw [Int.floor_eq_zero_iff]
    constructor <;> [linarith; linarith]
  simp [pyInt, hx, this]

/-- The first guard of the negative-binomial evaluator: degenerate mean
or no over-dispersion falls back to the Poisson evaluator. -/
theorem nb_fallback (mean variance prop_line : ℝ) (over : Bool)
    (h : mean ≤ 0 ∨ variance ≤ mean) :
    calculate_negative_binomial_probability mean variance prop_line over =
      calculate_poisson_probability mean prop_line over := by
  unfold calculate_negative_binomial_probability
  rw [if_pos h]

/-- Under over-dispersion the derived parameters are in range:
`0 < p < 1` and `0 < r`. -/
theorem nb_params_valid (mean variance : ℝ) (h1 : 0 < mean) (h2 : mean < variance) :
    0 < mean / variance ∧ mean / variance < 1 ∧
      0 < (mean * (mean / variance)) / (1 - mean / variance) := by
  have hv : 0 < variance := lt_trans h1 h2
  have hp : 0 < mean / variance := div_pos h1 hv
  have hp1 : mean / variance < 1 := (div_lt_one hv).mpr h2
  refine ⟨hp, hp1, ?_⟩
  have hq : 0 < 1 - mean / variance := by linarith
  positivity

/-- Under over-dispersion the negative-binomial evaluator takes its
main branch (the secondary guard never fires). -/
theorem nb_main_branch (mean variance prop_line : ℝ) (over : Bool)
    (h1 : 0 < mean) (h2 : mean < variance) :
    calculate_negative_binomial_probability mean variance prop_line over =
      (if over then
        1 - nbinomCDF (pyInt prop_line)
            ((mean * (mean / variance)) / (1 - mean / variance)) (mean / variance)
      else if 0 < prop_line then
        nbinomCDF (pyInt (prop_line - 1))
            ((mean * (mean / variance)) / (1 - mean / variance)) (mean / variance)
      else 0) := by
  obtain ⟨hp, hp1, hr⟩ := nb_params_valid mean variance h1 h2
  unfold calculate_negative_binomial_probability
  rw [if_neg (by push_neg; exact ⟨h1, h2⟩)]
  simp only []
  rw [if_neg (by push_neg; exact ⟨hr, hp, hp1⟩)]

/-- Claim C7: whenever `mean ≤ 0` or `variance ≤ mean`, the
negative-binomial evaluator returns exactly the Poisson evaluator's
value at the same mean, line and direction. -/
theorem claim_C7 (mean variance prop_line : ℝ) (over : Bool)
    (h : mean ≤ 0 ∨ variance ≤ mean) :
    calculate_negative_binomial_probability mean variance prop_line over =
      calculate_poisson_probability mean prop_line over := by
  unfold calculate_negative_binomial_probability
  rw [if_pos h]

theorem claim_C7_witness :
    calculate_negative_binomial_probability 1 1 2 true =
      calculate_poisson_probability 1 2 true :=
  claim_C7 1 1 2 true (Or.inr le_rfl)

/-- Claim C10: under the precondition `0 < mean` and `mean < variance`,
the derived parameters satisfy `0 < p < 1` and `0 < r`, so the
secondary fallback guard `(r ≤ 0 or p ≤ 0 or p ≥ 1)` is unreachable
and the evaluator takes the negative-binomial branch. -/
theorem claim_C10 (mean variance prop_line : ℝ) (over : Bool)
    (h1 : 0 < mean) (h2 : mean < variance) :
    (0 < mean / variance ∧ mean / variance < 1 ∧
        0 < (mean * (mean / variance)) / (1 - mean / variance)) ∧
    calculate_negative_binomial_probability mean variance prop_line over =
      (if over then
        1 - nbinomCDF (pyInt prop_line)
            ((mean * (mean / variance)) / (1 - mean / variance)) (mean / variance)
      else if 0 < prop_line then
        nbinomCDF (pyInt (prop_line - 1))
            ((mean * (mean / variance)) / (1 - mean / variance)) (mean / variance)
      else 0) :=
  ⟨nb_params_valid mean variance h1 h2, nb_main_branch mean variance prop_line over h1 h2⟩

theorem claim_C10_witness :
    (0 < (1 : ℝ) / 2 ∧ (1 : ℝ) / 2 < 1 ∧
        0 < ((1 : ℝ) * (1 / 2)) / (1 - 1 / 2)) ∧
    calculate_negative_binomial_probability 1 2 3 true =
      (if true then
        1 - nbinomCDF (pyInt 3) (((1 : ℝ) * (1 / 2)) / (1 - 1 / 2)) ((1 : ℝ) / 2)
      else if (0 : ℝ) < 3 then
        nbinomCDF (pyInt ((3 : ℝ) - 1)) (((1 : ℝ) * (1 / 2)) / (1 - 1 / 2)) ((1 : ℝ) / 2)
      else 0) := by
  have := claim_C10 1 2 3 true one_pos (by norm_num)
  norm_num at this ⊢
  exact this

/-- Claim C2 (amended): the Poisson evaluator returns 0 when
`lambda ≤ 0`; with `over = true` and a nonnegative line it returns
`1 − PoissonCDF(floor(line))`; with `over = false` it returns
`PoissonCDF(floor(line) − 1)` only for lines ≥ 1; for lines strictly
between 0 and 1 it returns `PoissonCDF(0)` (Python `int()` truncates
`line − 1` toward zero), and 0 for lines ≤ 0. -/
theorem claim_C2 (lam prop_line : ℝ) :
    (lam ≤ 0 → ∀ over, calculate_poisson_probability lam prop_line over = 0) ∧
    (0 < lam → 0 ≤ prop_line →
        calculate_poisson_probability lam prop_line true = 1 - poissonCDF ⌊prop_line⌋ lam) ∧
    (0 < lam → 1 ≤ prop_line →
        calculate_poisson_probability lam prop_line false = poissonCDF (⌊prop_line⌋ - 1) lam) ∧
    (0 < lam → 0 < prop_line → prop_line < 1 →
        calculate_poisson_probability lam prop_line false = poissonCDF 0 lam) ∧
    (prop_line ≤ 0 → calculate_poisson_probability lam prop_line false = 0) := by
  refine ⟨?_, ?_, ?_, ?_, ?_⟩
  · intro h over
    simp [calculate_poisson_probability, h]
  · intro h1 h2
    simp [calculate_poisson_probability, not_le.mpr h1, pyInt_of_nonneg _ h2]
  · intro h1 h2
    have hpos : (0 : ℝ) < prop_line := lt_of_lt_of_le one_pos h2
    have hfl : pyInt (prop_line - 1) = ⌊prop_line⌋ - 1 := by
      rw [pyInt_of_nonneg _ (by linarith)]
      exact_mod_cast Int.floor_sub_int prop_line 1
    simp [calculate_poisson_probability, not_le.mpr h1, hpos, hfl]
  · intro h1 h2 h3
    have hfl : pyInt (prop_line - 1) = 0 :=
      pyInt_of_neg_gt_neg_one _ (by linarith) (by linarith)
    simp [calculate_poisson_probability, not_le.mpr h1, h2, hfl]
  · intro h
    by_cases hl : lam ≤ 0 <;>
      simp [calculate_poisson_probability, hl, not_lt.mpr h]

theorem claim_C2_witness :
    calculate_poisson_probability 1 (3/2) true = 1 - poissonCDF ⌊(3/2 : ℝ)⌋ 1 :=
  (claim_C2 1 (3/2)).2.1 one_pos (by norm_num)

/-- Claim C2's counterexample: at `lambda = 1`, `line = 1/2`,
`over = false`, the code returns `PoissonCDF(0) = e^(−1)`, while the
claim's formula `PoissonCDF(floor(1/2) − 1) = PoissonCDF(−1)` is 0. -/
theorem claim_C2_counterexample :
    calculate_poisson_probability 1 (1/2) false = Real.exp (-1) ∧
    poissonCDF (⌊(1/2 : ℝ)⌋ - 1) 1 = 0 ∧
    Real.exp (-1) ≠ 0 := by
  refine ⟨?_, ?_, Real.exp_ne_zero _⟩
  · have hfl : pyInt ((1/2 : ℝ) - 1) = 0 :=
      pyInt_of_neg_gt_neg_one _ (by norm_num) (by norm_num)
    unfold calculate_poisson_probability
    rw [if_neg (by norm_num), if_neg (by simp), if_pos (by norm_num : (0 : ℝ) < 1/2), hfl]
    simp [poissonCDF]
  · have : ⌊(1/2 : ℝ)⌋ = 0 := by
      rw [Int.floor_eq_zero_iff]
      constructor <;> norm_num
    rw [this]
    simp [poissonCDF]

/-- Claim C5 (amended): the normal evaluator's over and under values
sum to exactly 1 for every mean, std and line; the Poisson and
negative-binomial evaluators' pairs sum to 1 when the (positive) rate
is paired with a line strictly between 0 and 1, but not in general. -/
theorem claim_C5 :
    (∀ mean std prop_line : ℝ,
        calculate_normal_probability mean std prop_line true +
          calculate_normal_probability mean std prop_line false = 1) ∧
    (∀ lam prop_line : ℝ, 0 < lam → 0 < prop_line → prop_line < 1 →
        calculate_poisson_probability lam prop_line true +
          calculate_poisson_probability lam prop_line false = 1) ∧
    (∀ mean variance prop_line : ℝ, 0 < mean → 0 < prop_line → prop_line < 1 →
        calculate_negative_binomial_probability mean variance prop_line true +
          calculate_negative_binomial_probability mean variance prop_line false = 1) := by
  have hpois : ∀ lam prop_line : ℝ, 0 < lam → 0 < prop_line → prop_line < 1 →
      calculate_poisson_probability lam prop_line true +
        calculate_poisson_probability lam prop_line false = 1 := by
    intro lam prop_line h1 h2 h3
    have hi1 : pyInt prop_line = 0 := by
      rw [pyInt_of_nonneg _ (le_of_lt h2), Int.floor_eq_zero_iff]
      constructor <;> linarith
    have hi2 : pyInt (prop_line - 1) = 0 :=
      pyInt_of_neg_gt_neg_one _ (by linarith) (by linarith)
    simp [calculate_poisson_probability, not_le.mpr h1, h2, hi1, hi2]
  refine ⟨?_, hpois, ?_⟩
  · intro mean std prop_line
    by_cases h : std ≤ 0
    · simp [calculate_normal_probability, h]
      norm_num
    · simp [calculate_normal_probability, h]
  · intro mean variance prop_line h1 h2 h3
    by_cases hv : variance ≤ mean
    · rw [nb_fallback _ _ _ _ (Or.inr hv), nb_fallback _ _ _ _ (Or.inr hv)]
      exact hpois mean prop_line h1 h2 h3
    · have hv' : mean < variance := not_le.mp hv
      rw [nb_main_branch _ _ _ _ h1 hv', nb_main_branch _ _ _ _ h1 hv']
      have hi1 : pyInt prop_line = 0 := by
        rw [pyInt_of_nonneg _ (le_of_lt h2), Int.floor_eq_zero_iff]
        constructor <;> linarith
      have hi2 : pyInt (prop_line - 1) = 0 :=
        pyInt_of_neg_gt_neg_one _ (by linarith) (by linarith)
      simp [hi1, hi2, h2]

theorem claim_C5_witness :
    calculate_poisson_probability 1 (1/2) true +
      calculate_poisson_probability 1 (1/2) false = 1 :=
  claim_C5.2.1 1 (1/2) one_pos (by norm_num) (by norm_num)

/-- Claim C5's counterexample: with `lambda = 0` (a legal parameter
set) both Poisson calls return 0, so the pair sums to 0, not 1. -/
theorem claim_C5_counterexample :
    calculate_poisson_probability 0 1 true + calculate_poisson_probability 0 1 false = 0 ∧
    (0 : ℝ) ≠ 1 := by
  constructor
  · simp [calculate_poisson_probability]
  · norm_num

/-- The count-stat category (identical list in
`get_best_probability_improved` and `get_distribution_name`). -/
def count_stats : List String :=
  ["rushing_attempts", "passing_attempts", "passing_completions", "receptions", "targets"]

/-- The discrete-bounded category as written in
`get_best_probability_improved` (three touchdown stats). -/
def discrete_bounded_stats_selection : List String :=
  ["passing_touchdowns", "rushing_touchdowns", "receiving_touchdowns"]

/-- The discrete-bounded category as written in `get_distribution_name`
(the same three plus `passing_interceptions`). -/
def discrete_bounded_stats_naming : List String :=
  ["passing_touchdowns", "rushing_touchdowns", "receiving_touchdowns",
   "passing_interceptions"]

/-- The continuous category (identical list in both functions). -/
def continuous_stats : List String :=
  ["passing_yards", "rushing_yards", "receiving_yards", "rushing_long", "receiving_long"]

/-- `cv ≤ c` where `cv = weighted_std / weighted_mean if weighted_mean > 0
else float(inf)`; the infinite value fails every `≤` test. -/
def cvLe (weighted_mean weighted_std c : ℝ) : Prop :=
  0 < weighted_mean ∧ weighted_std / weighted_mean ≤ c

/-- `cv > c` for the same extended-value `cv`; the infinite value passes
every `>` test. -/
def cvGt (weighted_mean weighted_std c : ℝ) : Prop :=
  0 < weighted_mean → c < weighted_std / weighted_mean

noncomputable instance (wm ws c : ℝ) : Decidable (cvLe wm ws c) := by
  unfold cvLe; infer_instance

noncomputable instance (wm ws c : ℝ) : Decidable (cvGt wm ws c) := by
  unfold cvGt; infer_instance

/-- `ProbabilityCalculator.get_best_probability_improved`. -/
noncomputable def get_best_probability_improved
    (normal_prob poisson_prob neg_bin_prob : ℝ) (stat_type : String)
    (weighted_mean weighted_std : ℝ) (sample_size : ℕ) : ℝ :=
  if sample_size < 3 then 0.5
  else if stat_type ∈ count_stats then
    if cvLe weighted_mean weighted_std 1.2 then round4 poisson_prob
    else round4 neg_bin_prob
  else if stat_type ∈ discrete_bounded_stats_selection then
    if weighted_mean < 0.5 then round4 poisson_prob
    else round4 neg_bin_prob
  else if stat_type ∈ continuous_stats then
    if stat_type ∈ ["rushing_long", "receiving_long"] then round4 neg_bin_prob
    else if 10 ≤ sample_size ∧ cvLe weighted_mean weighted_std 0.8 then round4 normal_prob
    else if cvGt weighted_mean weighted_std 1.5 then round4 neg_bin_prob
    else if 8 ≤ sample_size then round4 neg_bin_prob
    else round4 ((normal_prob + neg_bin_prob) / 2)
  else if 10 ≤ sample_size then round4 neg_bin_prob
  else round4 ((normal_prob + poisson_prob + neg_bin_prob) / 3)

/-- `ProbabilityCalculator.get_distribution_name`. -/
noncomputable def get_distribution_name (stat_type : String)
    (weighted_mean weighted_std : ℝ) (sample_size : ℕ) : String :=
  if sample_size < 3 then "insufficient_data"
  else if stat_type ∈ count_stats then
    if cvLe weighted_mean weighted_std 1.2 then "poisson" else "negative_binomial"
  else if stat_type ∈ discrete_bounded_stats_naming then
    if weighted_mean < 0.5 then "poisson" else "negative_binomial"
  else if stat_type ∈ continuous_stats then
    if stat_type ∈ ["rushing_long", "receiving_long"] then "negative_binomial"
    else if 10 ≤ sample_size ∧ cvLe weighted_mean weighted_std 0.8 then "normal"
    else if cvGt weighted_mean weighted_std 1.5 then "negative_binomial"
    else if 8 ≤ sample_size then "negative_binomial"
    else "blended"
  else if 10 ≤ sample_size then "negative_binomial"
  else "averaged"

/-- Modelled from the spec: the probability value that a reported
distribution name corresponds to (section 4.3's tag-to-evaluation
pairing), used to state the lock-step property of claim C1. -/
noncomputable def selection_for_name
    (name : String) (normal_prob poisson_prob neg_bin_prob : ℝ) : ℝ :=
  if name = "insufficient_data" then 0.5
  else if name = "poisson" then round4 poisson_prob
  else if name = "normal" then round4 normal_prob
  else if name = "blended" then round4 ((normal_prob + neg_bin_prob) / 2)
  else if name = "averaged" then round4 ((normal_prob + poisson_prob + neg_bin_prob) / 3)
  else round4 neg_bin_prob

theorem sfn_insufficient (n p nb : ℝ) :
    selection_for_name "insufficient_data" n p nb = 0.5 := by
  simp [selection_for_name]

theorem sfn_poisson (n p nb : ℝ) :
    selection_for_name "poisson" n p nb = round4 p := by
  simp [selection_for_name]

theorem sfn_normal (n p nb : ℝ) :
    selection_for_name "normal" n p nb = round4 n := by
  simp [selection_for_name]

theorem sfn_blended (n p nb : ℝ) :
    selection_for_name "blended" n p nb = round4 ((n + nb) / 2) := by
  simp [selection_for_name]

theorem sfn_averaged (n p nb : ℝ) :
    selection_for_name "averaged" n p nb = round4 ((n + p + nb) / 3) := by
  simp [selection_for_name]

theorem sfn_negbin (n p nb : ℝ) :
    selection_for_name "negative_binomial" n p nb = round4 nb := by
  simp [selection_for_name]

/-- Evaluating `round4` when the scaled argument is an exact integer. -/
theorem round4_of_int (x : ℝ) (k : ℤ) (h : x * 10000 = k) : round4 x = k / 10000 := by
  rw [round4, h, round_intCast]

/-- Claim C1 (amended): for every stat type other than
`passing_interceptions`, the probability picked by
`get_best_probability_improved` is exactly the one corresponding to the
name reported by `get_distribution_name` — the two heuristics stay in
lock-step. (`passing_interceptions` appears only in the naming
function's discrete-bounded list, so the two diverge there.) -/
theorem claim_C1 (normal_prob poisson_prob neg_bin_prob : ℝ) (stat_type : String)
    (weighted_mean weighted_std : ℝ) (sample_size : ℕ)
    (h : stat_type ≠ "passing_interceptions") :
    get_best_probability_improved normal_prob poisson_prob neg_bin_prob stat_type
        weighted_mean weighted_std sample_size =
      selection_for_name
        (get_distribution_name stat_type weighted_mean weighted_std sample_size)
        normal_prob poisson_prob neg_bin_prob := by
  have hiff : (stat_type ∈ discrete_bounded_stats_naming) ↔
      (stat_type ∈ discrete_bounded_stats_selection) := by
    simp [discrete_bounded_stats_naming, discrete_bounded_stats_selection, h]
  unfold get_best_probability_improved get_distribution_name
  by_cases h3 : sample_size < 3
  · rw [if_pos h3, if_pos h3, sfn_insufficient]
  rw [if_neg h3, if_neg h3]
  by_cases hcount : stat_type ∈ count_stats
  · rw [if_pos hcount, if_pos hcount]
    by_cases hcv : cvLe weighted_mean weighted_std 1.2
    · rw [if_pos hcv, if_pos hcv, sfn_poisson]
    · rw [if_neg hcv, if_neg hcv, sfn_negbin]
  rw [if_neg hcount, if_neg hcount]
  by_cases hdisc : stat_type ∈ discrete_bounded_stats_selection
  · rw [if_pos hdisc, if_pos (hiff.mpr hdisc)]
    by_cases hm : weighted_mean < 0.5
    · rw [if_pos hm, if_pos hm, sfn_poisson]
    · rw [if_neg hm, if_neg hm, sfn_negbin]
  rw [if_neg hdisc, if_neg (fun hx => hdisc (hiff.mp hx))]
  by_cases hcont : stat_type ∈ continuous_stats
  · rw [if_pos hcont, if_pos hcont]
    by_cases hlong : stat_type ∈ ["rushing_long", "receiving_long"]
    · rw [if_pos hlong, if_pos hlong, sfn_negbin]
    rw [if_neg hlong, if_neg hlong]
    by_cases hn : 10 ≤ sample_size ∧ cvLe weighted_mean weighted_std 0.8
    · rw [if_pos hn, if_pos hn, sfn_normal]
    rw [if_neg hn, if_neg hn]
    by_cases hgt : cvGt weighted_mean weighted_std 1.5
    · rw [if_pos hgt, if_pos hgt, sfn_negbin]
    rw [if_neg hgt, if_neg hgt]
    by_cases h8 : 8 ≤ sample_size
    · rw [if_pos h8, if_pos h8, sfn_negbin]
    · rw [if_neg h8, if_neg h8, sfn_blended]
  rw [if_neg hcont, if_neg hcont]
  by_cases h10 : 10 ≤ sample_size
  · rw [if_pos h10, if_pos h10, sfn_negbin]
  · rw [if_neg h10, if_neg h10, sfn_averaged]

theorem claim_C1_witness :
    get_best_probability_improved 0.7 0.6 0.4 "rushing_attempts" 20 10 8 =
      selection_for_name (get_distribution_name "rushing_attempts" 20 10 8)
        0.7 0.6 0.4 :=
  claim_C1 0.7 0.6 0.4 "rushing_attempts" 20 10 8 (by decide)

/-- Claim C1's counterexample: at `stat_type = "passing_interceptions"`
(`weighted_mean = 0.3`, `weighted_std = 0.3`, `sample_size = 5`) the
naming function reports `poisson`, whose probability would be
`round4 0.9 = 0.9` on inputs `(0, 0.9, 0)`, but the selection function
takes the default fallback and returns `round4 ((0+0.9+0)/3) = 0.3`. -/
theorem claim_C1_counterexample :
    get_best_probability_improved 0 0.9 0 "passing_interceptions" 0.3 0.3 5 = 0.3 ∧
    selection_for_name (get_distribution_name "passing_interceptions" 0.3 0.3 5)
        0 0.9 0 = 0.9 ∧
    (0.3 : ℝ) ≠ 0.9 := by
  refine ⟨?_, ?_, by norm_num⟩
  · unfold get_best_probability_improved
    rw [if_neg (by norm_num), if_neg (by decide), if_neg (by decide),
      if_neg (by decide), if_neg (by norm_num)]
    rw [round4_of_int _ 3000 (by norm_num)]
    norm_num
  · unfold get_distribution_name
    rw [if_neg (by norm_num), if_neg (by decide), if_pos (by decide),
      if_pos (by norm_num : (0.3 : ℝ) < 0.5), sfn_poisson]
    rw [round4_of_int _ 9000 (by norm_num)]
    norm_num

/-- Claim C8: with `sample_size < 3` the selection function returns 0.5
regardless of the candidate probabilities (hence both the over call and
the under call yield 0.5), and the naming function reports
`insufficient_data`. -/
theorem claim_C8 (normal_prob poisson_prob neg_bin_prob : ℝ) (stat_type : String)
    (weighted_mean weighted_std : ℝ) (sample_size : ℕ) (h : sample_size < 3) :
    get_best_probability_improved normal_prob poisson_prob neg_bin_prob stat_type
        weighted_mean weighted_std sample_size = 0.5 ∧
    get_distribution_name stat_type weighted_mean weighted_std sample_size =
      "insufficient_data" := by
  constructor
  · unfold get_best_probability_improved
    rw [if_pos h]
  · unfold get_distribution_name
    rw [if_pos h]

theorem claim_C8_witness :
    get_best_probability_improved 0.7 0.6 0.4 "rushing_yards" 50 10 2 = 0.5 ∧
    get_distribution_name "rushing_yards" 50 10 2 = "insufficient_data" :=
  claim_C8 0.7 0.6 0.4 "rushing_yards" 50 10 2 (by norm_num)

/-- `RollingStatsCalculator.decay_factor` (default 0.9). -/
def decay_factor : ℚ := 0.9

/-- `RollingStatsCalculator.get_exponential_weights`: exponential decay
weights `decay_factor ^ i`, reversed so the most recent week carries
the highest weight, then normalized by the total. Exact rationals
stand in for Python floats. -/
def get_exponential_weights (num_weeks : ℕ) : List ℚ :=
  let weights := ((List.range num_weeks).map (fun i => decay_factor ^ i)).reverse
  let total_weight := weights.sum
  weights.map (fun w => w / total_weight)

/-- The un-normalized weight list of `get_exponential_weights`. -/
def raw_weights (n : ℕ) : List ℚ :=
  ((List.range n).map (fun i => decay_factor ^ i)).reverse

theorem get_exponential_weights_eq (n : ℕ) :
    get_exponential_weights n =
      (raw_weights n).map (fun w => w / (raw_weights n).sum) := rfl

theorem raw_weights_length (n : ℕ) : (raw_weights n).length = n := by
  simp [raw_weights]

theorem decay_factor_pos : 0 < decay_factor := by norm_num [decay_factor]

theorem decay_factor_le_one : decay_factor ≤ 1 := by norm_num [decay_factor]

theorem raw_weights_mem_pos (n : ℕ) : ∀ w ∈ raw_weights n, 0 < w := by
  intro w hw
  rw [raw_weights, List.mem_reverse] at hw
  obtain ⟨i, _, rfl⟩ := List.mem_map.mp hw
  exact pow_pos decay_factor_pos i

theorem raw_weights_sum_pos (n : ℕ) (h : 1 ≤ n) : 0 < (raw_weights n).sum :=
  List.sum_pos _ (raw_weights_mem_pos n)
    (List.length_pos.mp (by rw [raw_weights_length]; omega))

theorem raw_weights_getElem (n i : ℕ) (h : i < (raw_weights n).length) :
    (raw_weights n)[i] = decay_factor ^ (n - 1 - i) := by
  show (((List.range n).map (fun j => decay_factor ^ j)).reverse)[i] = _
  rw [List.getElem_reverse, List.getElem_map, List.getElem_range]
  simp

theorem list_sum_map_div (l : List ℚ) (c : ℚ) :
    (l.map (fun w => w / c)).sum = l.sum / c := by
  induction l with
  | nil => simp
  | cons a t ih => simp [ih, add_div]

theorem get_exponential_weights_length (n : ℕ) :
    (get_exponential_weights n).length = n := by
  rw [get_exponential_weights_eq, List.length_map, raw_weights_length]

theorem get_exponential_weights_get (n i : ℕ)
    (h : i < (get_exponential_weights n).length) :
    (get_exponential_weights n).get ⟨i, h⟩ =
      decay_factor ^ (n - 1 - i) / (raw_weights n).sum := by
  have h2 : i < (raw_weights n).length := by
    rw [raw_weights_length]
    rw [get_exponential_weights_length] at h
    exact h
  rw [List.get_eq_getElem]
  show ((raw_weights n).map (fun w => w / (raw_weights n).sum))[i] = _
  rw [List.getElem_map, raw_weights_getElem n i h2]

/-- Claim C6: `get_exponential_weights 0 = []`; for `n ≥ 1` the result
has length `n`, all entries strictly positive, sums to exactly 1
(hence within the 1e-9 tolerance), is monotonically non-decreasing
from index 0 (oldest) to index `n − 1` (newest), and index `n − 1`
carries the largest weight. -/
theorem claim_C6 (n : ℕ) (hn : 1 ≤ n) :
    get_exponential_weights 0 = [] ∧
    (get_exponential_weights n).length = n ∧
    (∀ w ∈ get_exponential_weights n, 0 < w) ∧
    (get_exponential_weights n).sum = 1 ∧
    (∀ i j : ℕ, i ≤ j →
      ∀ (hi : i < (get_exponential_weights n).length)
        (hj : j < (get_exponential_weights n).length),
        (get_exponential_weights n).get ⟨i, hi⟩ ≤
          (get_exponential_weights n).get ⟨j, hj⟩) ∧
    (∀ i (hi : i < (get_exponential_weights n).length)
        (hl : n - 1 < (get_exponential_weights n).length),
        (get_exponential_weights n).get ⟨i, hi⟩ ≤
          (get_exponential_weights n).get ⟨n - 1, hl⟩) := by
  have hmono : ∀ i j : ℕ, i ≤ j →
      ∀ (hi : i < (get_exponential_weights n).length)
        (hj : j < (get_exponential_weights n).length),
        (get_exponential_weights n).get ⟨i, hi⟩ ≤
          (get_exponential_weights n).get ⟨j, hj⟩ := by
    intro i j hij hi hj
    rw [get_exponential_weights_get, get_exponential_weights_get]
    apply div_le_div_of_nonneg_right _ (raw_weights_sum_pos n hn).le
    exact pow_le_pow_of_le_one decay_factor_pos.le decay_factor_le_one (by omega)
  refine ⟨rfl, get_exponential_weights_length n, ?_,
    ?_, hmono, ?_⟩
  · intro w hw
    rw [get_exponential_weights_eq] at hw
    obtain ⟨v, hv, rfl⟩ := List.mem_map.mp hw
    exact div_pos (raw_weights_mem_pos n v hv) (raw_weights_sum_pos n hn)
  · rw [get_exponential_weights_eq, list_sum_map_div,
      div_self (ne_of_gt (raw_weights_sum_pos n hn))]
  · intro i hi hl
    apply hmono i (n - 1) _ hi hl
    rw [get_exponential_weights_length] at hi
    omega

theorem claim_C6_witness :
    (get_exponential_weights 3).sum = 1 ∧ (get_exponential_weights 3).length = 3 :=
  ⟨(claim_C6 3 (by norm_num)).2.2.2.1, (claim_C6 3 (by norm_num)).2.1⟩

/-- The per-statistic fields the probability calculator reads from a
rolling record. The aggregator
(`RollingStatsCalculator.calculate_rolling_stats_for_player`) always
writes the `_weighted_mean`, `_weighted_std`, `_lambda` and
`_sample_size` keys of a statistic together, so a statistic is either
fully present or fully absent from the flat record dict; the record is
therefore modelled as a partial map from statistic name to a full
entry. -/
structure StatEntry where
  weighted_mean : ℝ
  weighted_std : ℝ
  lambda_param : ℝ
  sample_size : ℕ

/-- An item of the `nfl_player_rolling_stats` table: statistic name to
its entry (only the statistical fields are modelled; the metadata
fields are not read by the probability calculator). -/
def RollingRecord : Type := String → Option StatEntry

/-- The `nfl_player_rolling_stats` table itself, as read through
`ProbabilityCalculator.get_player_rolling_stats`: player id to record,
`none` when the item is missing. -/
def StatsStore : Type := String → Option RollingRecord

/-- Python `rolling_stats.get(stat + "_weighted_mean", 0)`. -/
def statMean (r : RollingRecord) (stat : String) : ℝ :=
  match r stat with
  | some e => e.weighted_mean
  | none => 0

/-- Python `rolling_stats.get(stat + "_weighted_std", 0)`. -/
def statStd (r : RollingRecord) (stat : String) : ℝ :=
  match r stat with
  | some e => e.weighted_std
  | none => 0

/-- Python `int(rolling_stats.get(stat + "_sample_size", 0))`. -/
def statSample (r : RollingRecord) (stat : String) : ℕ :=
  match r stat with
  | some e => e.sample_size
  | none => 0

/-- The success payload of an over/under probability calculation
(the dict built by the `calculate_*_probabilities` methods). -/
structure OUResult where
  over_probability : ℝ
  under_probability : ℝ
  sample_size : ℕ
  weighted_mean : ℝ
  distribution_used : String

/-- The success payload of the binary anytime-touchdown calculation. -/
structure BinaryResult where
  yes_probability : ℝ
  no_probability : ℝ
  sample_size : ℕ
  weighted_mean : ℝ
  distribution_used : String

/-- `ProbabilityCalculator.calculate_combined_touchdowns_probabilities`;
a returned `{'error': ...}` dict is modelled as `Except.error`. -/
noncomputable def calculate_combined_touchdowns_probabilities
    (stats : StatsStore) (player_id : String) (prop_line : ℝ) :
    Except String OUResult :=
  match stats player_id with
  | none => .error "Player rolling stats not found"
  | some rolling_stats =>
    let rushing_tds_mean := statMean rolling_stats "rushing_touchdowns"
    let receiving_tds_mean := statMean rolling_stats "receiving_touchdowns"
    let total_td_mean := rushing_tds_mean + receiving_tds_mean
    let rushing_sample := statSample rolling_stats "rushing_touchdowns"
    let receiving_sample := statSample rolling_stats "receiving_touchdowns"
    let sample_size := max rushing_sample receiving_sample
    .ok {
      over_probability := round4 (calculate_poisson_probability total_td_mean prop_line true)
      under_probability := round4 (calculate_poisson_probability total_td_mean prop_line false)
      sample_size := sample_size
      weighted_mean := round2 total_td_mean
      distribution_used := "poisson_combined" }

/-- `ProbabilityCalculator.calculate_combined_rush_receiving_yards_probabilities`. -/
noncomputable def calculate_combined_rush_receiving_yards_probabilities
    (stats : StatsStore) (player_id : String) (prop_line : ℝ) :
    Except String OUResult :=
  match stats player_id with
  | none => .error "Player rolling stats not found"
  | some rolling_stats =>
    let rushing_yards_mean := statMean rolling_stats "rushing_yards"
    let receiving_yards_mean := statMean rolling_stats "receiving_yards"
    let rushing_yards_std := statStd rolling_stats "rushing_yards"
    let receiving_yards_std := statStd rolling_stats "receiving_yards"
    let total_yards_mean := rushing_yards_mean + receiving_yards_mean
    let total_yards_std := (rushing_yards_std ^ 2 + receiving_yards_std ^ 2) ^ (0.5 : ℝ)
    let rushing_sample := statSample rolling_stats "rushing_yards"
    let receiving_sample := statSample rolling_stats "receiving_yards"
    let sample_size := max rushing_sample receiving_sample
    .ok {
      over_probability := round4 (calculate_normal_probability total_yards_mean total_yards_std prop_line true)
      under_probability := round4 (calculate_normal_probability total_yards_mean total_yards_std prop_line false)
      sample_size := sample_size
      weighted_mean := round2 total_yards_mean
      distribution_used := "normal_combined" }

/-- `ProbabilityCalculator.calculate_anytime_td_probability`. -/
noncomputable def calculate_anytime_td_probability
    (stats : StatsStore) (player_id : String) : Except String BinaryResult :=
  match stats player_id with
  | none => .error "Player rolling stats not found"
  | some rolling_stats =>
    let rushing_tds_mean := statMean rolling_stats "rushing_touchdowns"
    let receiving_tds_mean := statMean rolling_stats "receiving_touchdowns"
    let total_td_mean := rushing_tds_mean + receiving_tds_mean
    let rushing_sample := statSample rolling_stats "rushing_touchdowns"
    let receiving_sample := statSample rolling_stats "receiving_touchdowns"
    let sample_size := max rushing_sample receiving_sample
    let prob_no_td := calculate_poisson_probability total_td_mean 0.5 false
    let prob_any_td := 1 - prob_no_td
    .ok {
      yes_probability := round4 prob_any_td
      no_probability := round4 prob_no_td
      sample_size := sample_size
      weighted_mean := round2 total_td_mean
      distribution_used := "poisson_binary" }

/-- `ProbabilityCalculator.calculate_prop_probabilities` (single-stat
path: all three evaluators, then the selection heuristic). -/
noncomputable def calculate_prop_probabilities
    (stats : StatsStore) (player_id stat_type : String) (prop_line : ℝ) :
    Except String OUResult :=
  match stats player_id with
  | none => .error "Player rolling stats not found"
  | some rolling_stats =>
    match rolling_stats stat_type with
    | none => .error ("Stat type " ++ stat_type ++ " not found for player")
    | some e =>
      let variance := e.weighted_std ^ 2
      let normal_over := calculate_normal_probability e.weighted_mean e.weighted_std prop_line true
      let poisson_over := calculate_poisson_probability e.lambda_param prop_line true
      let neg_bin_over := calculate_negative_binomial_probability e.weighted_mean variance prop_line true
      let normal_under := calculate_normal_probability e.weighted_mean e.weighted_std prop_line false
      let poisson_under := calculate_poisson_probability e.lambda_param prop_line false
      let neg_bin_under := calculate_negative_binomial_probability e.weighted_mean variance prop_line false
      let best_over := get_best_probability_improved normal_over poisson_over neg_bin_over
        stat_type e.weighted_mean e.weighted_std e.sample_size
      let best_under := get_best_probability_improved normal_under poisson_under neg_bin_under
        stat_type e.weighted_mean e.weighted_std e.sample_size
      .ok {
        over_probability := best_over
        under_probability := best_under
        sample_size := e.sample_size
        weighted_mean := round2 e.weighted_mean
        distribution_used := get_distribution_name stat_type e.weighted_mean e.weighted_std e.sample_size }

/-- Evaluating `round2` when the scaled argument is an exact integer. -/
theorem round2_of_int (x : ℝ) (k : ℤ) (h : x * 100 = k) : round2 x = k / 100 := by
  rw [round2, h, round_intCast]

/-- The Poisson evaluator at line `0.5`, direction under, positive rate:
`P(X < 1) = P(X = 0) = e^(−m)` (via `int(0.5 − 1) = 0`). -/
theorem poisson_at_half_under (m : ℝ) (h : 0 < m) :
    calculate_poisson_probability m 0.5 false = Real.exp (-m) := by
  unfold calculate_poisson_probability
  rw [if_neg (not_le.mpr h), if_neg (by simp), if_pos (by norm_num : (0 : ℝ) < 0.5),
    pyInt_of_neg_gt_neg_one _ (by norm_num) (by norm_num)]
  simp [poissonCDF]

/-- Claim C4 (amended): with combined touchdown mean
`m = rushing + receiving weighted means` strictly positive, the
anytime-touchdown calculator returns `yes = round4 (1 − e^(−m))` and
`no = round4 (e^(−m))` (its complement before 4-digit rounding), with
sample size `max` of the two component sizes; with `m ≤ 0` the Poisson
evaluator's `lambda ≤ 0` guard makes `prob_no_td = 0`, so the result
is `yes = 1`, `no = 0` rather than the claim's `1 − e^(−m)`. -/
theorem claim_C4 (stats : StatsStore) (player_id : String) (r : RollingRecord)
    (h : stats player_id = some r) :
    (0 < statMean r "rushing_touchdowns" + statMean r "receiving_touchdowns" →
      calculate_anytime_td_probability stats player_id = .ok {
        yes_probability := round4 (1 - Real.exp
          (-(statMean r "rushing_touchdowns" + statMean r "receiving_touchdowns")))
        no_probability := round4 (Real.exp
          (-(statMean r "rushing_touchdowns" + statMean r "receiving_touchdowns")))
        sample_size := max (statSample r "rushing_touchdowns")
          (statSample r "receiving_touchdowns")
        weighted_mean := round2
          (statMean r "rushing_touchdowns" + statMean r "receiving_touchdowns")
        distribution_used := "poisson_binary" }) ∧
    (statMean r "rushing_touchdowns" + statMean r "receiving_touchdowns" ≤ 0 →
      calculate_anytime_td_probability stats player_id = .ok {
        yes_probability := 1
        no_probability := 0
        sample_size := max (statSample r "rushing_touchdowns")
          (statSample r "receiving_touchdowns")
        weighted_mean := round2
          (statMean r "rushing_touchdowns" + statMean r "receiving_touchdowns")
        distribution_used := "poisson_binary" }) := by
  constructor
  · intro hm
    simp only [calculate_anytime_td_probability, h]
    rw [poisson_at_half_under _ hm]
  · intro hm
    simp only [calculate_anytime_td_probability, h]
    have h0 : calculate_poisson_probability
        (statMean r "rushing_touchdowns" + statMean r "receiving_touchdowns") 0.5 false = 0 := by
      unfold calculate_poisson_probability
      rw [if_pos hm]
    rw [h0]
    have r1 : round4 (1 - 0) = 1 := by
      rw [round4_of_int _ 10000 (by norm_num)]
      norm_num
    have r0 : round4 (0 : ℝ) = 0 := by
      rw [round4_of_int _ 0 (by norm_num)]
      norm_num
    rw [r1, r0]

/-- Rolling record of the spec's end-to-end scenario B: rushing TD mean
0.3, receiving TD mean 0.1, sample sizes 10 and 10. -/
def recScenarioB : RollingRecord := fun s =>
  if s = "rushing_touchdowns" then some ⟨0.3, 0.2, 0.3, 10⟩
  else if s = "receiving_touchdowns" then some ⟨0.1, 0.1, 0.1, 10⟩
  else none

theorem claim_C4_witness :
    calculate_anytime_td_probability (fun _ => some recScenarioB) "p1" = .ok {
      yes_probability := round4 (1 - Real.exp
        (-(statMean recScenarioB "rushing_touchdowns" +
           statMean recScenarioB "receiving_touchdowns")))
      no_probability := round4 (Real.exp
        (-(statMean recScenarioB "rushing_touchdowns" +
           statMean recScenarioB "receiving_touchdowns")))
      sample_size := max (statSample recScenarioB "rushing_touchdowns")
        (statSample recScenarioB "receiving_touchdowns")
      weighted_mean := round2
        (statMean recScenarioB "rushing_touchdowns" +
         statMean recScenarioB "receiving_touchdowns")
      distribution_used := "poisson_binary" } :=
  (claim_C4 (fun _ => some recScenarioB) "p1" recScenarioB rfl).1
    (by simp [statMean, recScenarioB]; norm_num)

/-- A rolling record with no statistics at all; every mean defaults to
0, so the combined touchdown mean is 0. -/
def emptyRecord : RollingRecord := fun _ => none

/-- Claim C4's counterexample: at combined mean `m = 0` the code
returns `yes_probability = 1`, while the claim's formula
`1 − e^(−m)` evaluates to 0 — and `1 ≠ 0`. -/
theorem claim_C4_counterexample :
    calculate_anytime_td_probability (fun _ => some emptyRecord) "p1" = .ok {
      yes_probability := 1
      no_probability := 0
      sample_size := 0
      weighted_mean := round2 (statMean emptyRecord "rushing_touchdowns" +
        statMean emptyRecord "receiving_touchdowns")
      distribution_used := "poisson_binary" } ∧
    1 - Real.exp (-(0 : ℝ)) = 0 ∧ (1 : ℝ) ≠ 0 := by
  refine ⟨?_, by simp, by norm_num⟩
  have h2 := (claim_C4 (fun _ => some emptyRecord) "p1" emptyRecord rfl).2
    (by simp [statMean, emptyRecord])
  rw [h2]
  simp [statSample, emptyRecord]

/-- Demo rolling record for claim C9. -/
def recC9 : RollingRecord := fun s =>
  if s = "rushing_touchdowns" then some ⟨0.6, 0.5, 0.6, 12⟩
  else if s = "receiving_touchdowns" then some ⟨0.2, 0.3, 0.2, 9⟩
  else if s = "passing_touchdowns" then some ⟨1.8, 0.9, 1.8, 12⟩
  else none

/-- Claim C9: the combined-touchdowns calculator uses exactly the sum
of the rushing and receiving touchdown weighted means, evaluates both
sides via the Poisson evaluator only, reports
`max(rushing_sample, receiving_sample)` — and passing touchdowns are
excluded: the result is invariant under any change to the record that
preserves the two component entries. -/
theorem claim_C9 (stats : StatsStore) (player_id : String) (r : RollingRecord)
    (h : stats player_id = some r) (prop_line : ℝ) :
    calculate_combined_touchdowns_probabilities stats player_id prop_line = .ok {
      over_probability := round4 (calculate_poisson_probability
        (statMean r "rushing_touchdowns" + statMean r "receiving_touchdowns") prop_line true)
      under_probability := round4 (calculate_poisson_probability
        (statMean r "rushing_touchdowns" + statMean r "receiving_touchdowns") prop_line false)
      sample_size := max (statSample r "rushing_touchdowns")
        (statSample r "receiving_touchdowns")
      weighted_mean := round2
        (statMean r "rushing_touchdowns" + statMean r "receiving_touchdowns")
      distribution_used := "poisson_combined" } ∧
    (∀ (stats2 : StatsStore) (r2 : RollingRecord), stats2 player_id = some r2 →
      r2 "rushing_touchdowns" = r "rushing_touchdowns" →
      r2 "receiving_touchdowns" = r "receiving_touchdowns" →
      calculate_combined_touchdowns_probabilities stats2 player_id prop_line =
        calculate_combined_touchdowns_probabilities stats player_id prop_line) := by
  constructor
  · simp only [calculate_combined_touchdowns_probabilities, h]
  · intro stats2 r2 h2 hr1 hr2
    simp only [calculate_combined_touchdowns_probabilities, h, h2, statMean, statSample,
      hr1, hr2]

theorem claim_C9_witness :
    calculate_combined_touchdowns_probabilities (fun _ => some recC9) "p1" 0.5 = .ok {
      over_probability := round4 (calculate_poisson_probability
        (statMean recC9 "rushing_touchdowns" + statMean recC9 "receiving_touchdowns") 0.5 true)
      under_probability := round4 (calculate_poisson_probability
        (statMean recC9 "rushing_touchdowns" + statMean recC9 "receiving_touchdowns") 0.5 false)
      sample_size := max (statSample recC9 "rushing_touchdowns")
        (statSample recC9 "receiving_touchdowns")
      weighted_mean := round2
        (statMean recC9 "rushing_touchdowns" + statMean recC9 "receiving_touchdowns")
      distribution_used := "poisson_combined" } :=
  (claim_C9 (fun _ => some recC9) "p1" recC9 rfl 0.5).1

/-- One market of a prop item: the bookmaker market key and the
optional line (`point`), absent for binary markets. -/
structure Market where
  market_key : String
  point : Option ℚ
deriving DecidableEq

/-- One item of the `nfl_player_props` table as consumed by the
projection entry point: player display name plus its markets. -/
structure PropItem where
  player_name : String
  markets : List Market

/-- The read-only environment of one projection run: today's prop
items (the result of `get_todays_player_props`), the fuzzy name
resolver (`find_player_id_by_name_fuzzy`, an external collaborator)
and the rolling-stats store. -/
structure Env where
  props : List PropItem
  resolve : String → Option String
  stats : StatsStore

/-- A synthesized prop label; Python renders it as the string
`market_key + "_" + side + "_" + str(point)` (no point for binary
markets). The rendering is injective on the inputs in scope, so label
equality models string-key equality. -/
structure PropLabel where
  market_key : String
  side : String
  point : Option ℚ
deriving DecidableEq

/-- `ProbabilityCalculator.prop_to_stat_mapping`. -/
def prop_to_stat_mapping : List (String × String) :=
  [("player_rush_yds", "rushing_yards"),
   ("player_rush_tds", "rushing_touchdowns"),
   ("player_rush_attempts", "rushing_attempts"),
   ("player_rush_longest", "rushing_long"),
   ("player_pass_yds", "passing_yards"),
   ("player_pass_tds", "passing_touchdowns"),
   ("player_pass_attempts", "passing_attempts"),
   ("player_pass_completions", "passing_completions"),
   ("player_reception_yds", "receiving_yards"),
   ("player_reception_tds", "receiving_touchdowns"),
   ("player_receptions", "receptions"),
   ("player_reception_longest", "receiving_long"),
   ("player_rush_reception_yds", "combined_rush_receiving_yards"),
   ("player_rush_reception_tds", "combined_rush_receiving_tds"),
   ("player_tds", "combined_touchdowns"),
   ("player_anytime_td", "anytime_touchdown")]

/-- Python `self.prop_to_stat_mapping.get(market_key)`. -/
def statForMarket (market_key : String) : Option String :=
  prop_to_stat_mapping.lookup market_key

/-- The body of the market loop in `get_all_todays_probabilities`: the
`player_probs` entries contributed by one market, together with the
diagnostic messages printed on the skip/error paths (purely
informational prints are not modelled; quotes around the player name
in the fuzzy-matching message are dropped). -/
noncomputable def processMarket (stats : StatsStore) (player_id player_name : String)
    (market : Market) : List (PropLabel × ℝ) × List String :=
  if market.market_key = "" then ([], [])
  else if market.market_key ∈ ["player_anytime_td", "player_1st_td", "player_last_td"] then
    if market.market_key = "player_anytime_td" then
      match calculate_anytime_td_probability stats player_id with
      | .ok res =>
        ([(⟨market.market_key, "yes", none⟩, res.yes_probability),
          (⟨market.market_key, "no", none⟩, res.no_probability)], [])
      | .error e =>
        ([], ["Error calculating probabilities for " ++ player_name ++ " " ++
          market.market_key ++ ": " ++ e])
    else
      ([], ["Skipping " ++ market.market_key ++ " - requires specialized modeling"])
  else
    match market.point with
    | none => ([], ["Skipping " ++ market.market_key ++ " for " ++ player_name ++
        " - no point value"])
    | some point =>
      let result :=
        if market.market_key = "player_tds" then
          some (calculate_combined_touchdowns_probabilities stats player_id (point : ℝ))
        else if market.market_key = "player_rush_reception_yds" then
          some (calculate_combined_rush_receiving_yards_probabilities stats player_id (point : ℝ))
        else if market.market_key = "player_rush_reception_tds" then
          some (calculate_combined_touchdowns_probabilities stats player_id (point : ℝ))
        else
          match statForMarket market.market_key with
          | none => none
          | some stat_type =>
            some (calculate_prop_probabilities stats player_id stat_type (point : ℝ))
      match result with
      | none => ([], ["No mapping found for market key: " ++ market.market_key])
      | some (.ok res) =>
        ([(⟨market.market_key, "over", some point⟩, res.over_probability),
          (⟨market.market_key, "under", some point⟩, res.under_probability)], [])
      | some (.error e) =>
        ([], ["Error calculating probabilities for " ++ player_name ++ " " ++
          market.market_key ++ ": " ++ e])

/-- The body of the prop-item loop in `get_all_todays_probabilities`:
skip items with an empty name or no markets, resolve the player id
through the fuzzy matcher, process all markets, and contribute a
player entry only when the accumulated `player_probs` is nonempty. -/
noncomputable def processItem (resolve : String → Option String) (stats : StatsStore)
    (item : PropItem) : List (String × List (PropLabel × ℝ)) × List String :=
  if item.player_name = "" ∨ item.markets = [] then ([], [])
  else
    match resolve item.player_name with
    | none => ([], ["Could not find player ID for " ++ item.player_name ++
        " after fuzzy matching"])
    | some player_id =>
      let step := item.markets.foldl (fun acc market =>
        let res := processMarket stats player_id item.player_name market
        (acc.1 ++ res.1, acc.2 ++ res.2)) ([], [])
      (if step.1 = [] then [] else [(item.player_name, step.1)], step.2)

/-- `ProbabilityCalculator.get_all_todays_probabilities`: the mapping
of player name to per-market probability entries, paired with the
diagnostics printed along the way. The Python dict keyed by player
name is modelled as an association list in insertion order. -/
noncomputable def get_all_todays_probabilities (env : Env) :
    List (String × List (PropLabel × ℝ)) × List String :=
  env.props.foldl (fun acc item =>
    let res := processItem env.resolve env.stats item
    (acc.1 ++ res.1, acc.2 ++ res.2)) ([], [])

/-- Claim C3 (amended): the projection entry point is a total function
of the run environment (every fallible lookup is handled by an
explicit skip/error branch, so no exception propagates), but per-item
failures do not surface as entries of the returned output mapping:
each of the five failure kinds — unknown market key, unsupported
first/last-touchdown market, missing point value, missing player
rolling record, statistic absent from the record — produces exactly
one printed diagnostic and no output entry, and a player whose only
market fails is omitted from the mapping entirely. -/
theorem claim_C3 :
    (∀ (resolve : String → Option String) (stats : StatsStore)
        (name pid k : String) (q : ℚ),
      name ≠ "" → resolve name = some pid → k ≠ "" →
      k ∉ ["player_anytime_td", "player_1st_td", "player_last_td"] →
      k ∉ ["player_tds", "player_rush_reception_yds", "player_rush_reception_tds"] →
      statForMarket k = none →
      get_all_todays_probabilities ⟨[⟨name, [⟨k, some q⟩]⟩], resolve, stats⟩ =
        ([], ["No mapping found for market key: " ++ k])) ∧
    (∀ (resolve : String → Option String) (stats : StatsStore)
        (name pid : String) (pt : Option ℚ),
      name ≠ "" → resolve name = some pid →
      ∀ k ∈ ["player_1st_td", "player_last_td"],
      get_all_todays_probabilities ⟨[⟨name, [⟨k, pt⟩]⟩], resolve, stats⟩ =
        ([], ["Skipping " ++ k ++ " - requires specialized modeling"])) ∧
    (∀ (resolve : String → Option String) (stats : StatsStore) (name pid k : String),
      name ≠ "" → resolve name = some pid → k ≠ "" →
      k ∉ ["player_anytime_td", "player_1st_td", "player_last_td"] →
      get_all_todays_probabilities ⟨[⟨name, [⟨k, none⟩]⟩], resolve, stats⟩ =
        ([], ["Skipping " ++ k ++ " for " ++ name ++ " - no point value"])) ∧
    (∀ (resolve : String → Option String) (stats : StatsStore)
        (name pid st k : String) (q : ℚ),
      name ≠ "" → resolve name = some pid → stats pid = none → k ≠ "" →
      k ∉ ["player_anytime_td", "player_1st_td", "player_last_td"] →
      k ∉ ["player_tds", "player_rush_reception_yds", "player_rush_reception_tds"] →
      statForMarket k = some st →
      get_all_todays_probabilities ⟨[⟨name, [⟨k, some q⟩]⟩], resolve, stats⟩ =
        ([], ["Error calculating probabilities for " ++ name ++ " " ++ k ++ ": " ++
          "Player rolling stats not found"])) ∧
    (∀ (resolve : String → Option String) (stats : StatsStore) (r : RollingRecord)
        (name pid st k : String) (q : ℚ),
      name ≠ "" → resolve name = some pid → stats pid = some r → r st = none → k ≠ "" →
      k ∉ ["player_anytime_td", "player_1st_td", "player_last_td"] →
      k ∉ ["player_tds", "player_rush_reception_yds", "player_rush_reception_tds"] →
      statForMarket k = some st →
      get_all_todays_probabilities ⟨[⟨name, [⟨k, some q⟩]⟩], resolve, stats⟩ =
        ([], ["Error calculating probabilities for " ++ name ++ " " ++ k ++ ": " ++
          ("Stat type " ++ st ++ " not found for player")])) := by
  refine ⟨?_, ?_, ?_, ?_, ?_⟩
  · intro resolve stats name pid k q hn hres hk hb hc hs
    have hb1 : k ≠ "player_anytime_td" := by intro he; exact hb (by rw [he]; decide)
    have hb2 : k ≠ "player_1st_td" := by intro he; exact hb (by rw [he]; decide)
    have hb3 : k ≠ "player_last_td" := by intro he; exact hb (by rw [he]; decide)
    have hc1 : k ≠ "player_tds" := by intro he; exact hc (by rw [he]; decide)
    have hc2 : k ≠ "player_rush_reception_yds" := by intro he; exact hc (by rw [he]; decide)
    have hc3 : k ≠ "player_rush_reception_tds" := by intro he; exact hc (by rw [he]; decide)
    simp [get_all_todays_probabilities, processItem, processMarket,
      hn, hres, hk, hb1, hb2, hb3, hc1, hc2, hc3, hs]
  · intro resolve stats name pid pt hn hres k hk
    simp only [List.mem_cons, List.mem_singleton, List.not_mem_nil, or_false] at hk
    rcases hk with rfl | rfl <;>
      simp [get_all_todays_probabilities, processItem, processMarket, hn, hres]
  · intro resolve stats name pid k hn hres hk hb
    have hb1 : k ≠ "player_anytime_td" := by intro he; exact hb (by rw [he]; decide)
    have hb2 : k ≠ "player_1st_td" := by intro he; exact hb (by rw [he]; decide)
    have hb3 : k ≠ "player_last_td" := by intro he; exact hb (by rw [he]; decide)
    simp [get_all_todays_probabilities, processItem, processMarket,
      hn, hres, hk, hb1, hb2, hb3]
  · intro resolve stats name pid st k q hn hres hstats hk hb hc hs
    have hb1 : k ≠ "player_anytime_td" := by intro he; exact hb (by rw [he]; decide)
    have hb2 : k ≠ "player_1st_td" := by intro he; exact hb (by rw [he]; decide)
    have hb3 : k ≠ "player_last_td" := by intro he; exact hb (by rw [he]; decide)
    have hc1 : k ≠ "player_tds" := by intro he; exact hc (by rw [he]; decide)
    have hc2 : k ≠ "player_rush_reception_yds" := by intro he; exact hc (by rw [he]; decide)
    have hc3 : k ≠ "player_rush_reception_tds" := by intro he; exact hc (by rw [he]; decide)
    simp [get_all_todays_probabilities, processItem, processMarket,
      calculate_prop_probabilities, hn, hres, hstats, hk, hb1, hb2, hb3, hc1, hc2, hc3, hs]
  · intro resolve stats r name pid st k q hn hres hstats habs hk hb hc hs
    have hb1 : k ≠ "player_anytime_td" := by intro he; exact hb (by rw [he]; decide)
    have hb2 : k ≠ "player_1st_td" := by intro he; exact hb (by rw [he]; decide)
    have hb3 : k ≠ "player_last_td" := by intro he; exact hb (by rw [he]; decide)
    have hc1 : k ≠ "player_tds" := by intro he; exact hc (by rw [he]; decide)
    have hc2 : k ≠ "player_rush_reception_yds" := by intro he; exact hc (by rw [he]; decide)
    have hc3 : k ≠ "player_rush_reception_tds" := by intro he; exact hc (by rw [he]; decide)
    simp [get_all_todays_probabilities, processItem, processMarket,
      calculate_prop_probabilities, hn, hres, hstats, habs, hk,
      hb1, hb2, hb3, hc1, hc2, hc3, hs]

theorem claim_C3_witness :
    get_all_todays_probabilities ⟨[⟨"john doe", [⟨"player_1st_td", some 1⟩]⟩],
        fun _ => some "p1", fun _ => none⟩ =
      ([], ["Skipping " ++ "player_1st_td" ++ " - requires specialized modeling"]) :=
  claim_C3.2.1 (fun _ => some "p1") (fun _ => none) "john doe" "p1" (some 1)
    (by decide) rfl "player_1st_td" (by decide)

/-- Environment with one resolvable player whose only market has a
market key absent from `prop_to_stat_mapping`. -/
def envUnknownKey : Env :=
  { props := [⟨"john doe", [⟨"player_sacks", some 1⟩]⟩]
    resolve := fun _ => some "p1"
    stats := fun _ => none }

/-- Claim C3's counterexample: this run hits a per-item failure (an
unknown market key, which the code reports only as a printed
diagnostic), yet the returned output mapping is empty — the failure
produces no structured per-item error entry in the mapping, contrary
to the claim. -/
theorem claim_C3_counterexample :
    get_all_todays_probabilities envUnknownKey =
      ([], ["No mapping found for market key: player_sacks"]) := by
  have hs : statForMarket "player_sacks" = none := rfl
  simp [get_all_todays_probabilities, envUnknownKey, processItem, processMarket, hs]

end NFLBets
